import Mathlib

set_option maxRecDepth 100000

/-!
Verification of the Inspire Hand Modbus RTU driver.

The definitions below are a shallow embedding of the Python sources:
`inspire_hand_modbus_proper.py` (class `InspireHandModbus`: CRC16, frame
encoders, response parsing, transport behaviour) and `inspire_hand/hand.py`
(class `InspireHand`: register map, range validation, packed-byte register
decoding, connection state machine).  Bytes are modelled as `Nat` with the
masking the source performs (`& 0xFF`), frames as `List Nat`, Python
exceptions as `Option`/`Except` failure values.
-/

/-! ### CRC16 (InspireHandModbus._calculate_crc)

Python source:
```
crc = 0xFFFF
for byte in data:
    crc ^= byte
    for _ in range(8):
        if crc & 0x0001:
            crc = (crc >> 1) ^ 0xA001
        else:
            crc = crc >> 1
return crc.to_bytes(2, byteorder='little')
```
-/

/-- One inner-loop round of the Modbus CRC16: shift right, xor 0xA001 when
the low bit was set. -/
def crcShift (crc : Nat) : Nat :=
  if crc &&& 1 = 1 then (crc >>> 1) ^^^ 0xA001 else crc >>> 1

/-- Run `n` CRC rounds (the source always runs 8 per byte). -/
def crcRounds : Nat → Nat → Nat
  | 0, crc => crc
  | n + 1, crc => crcRounds n (crcShift crc)

/-- The Modbus CRC16 register after absorbing `data`, initial value 0xFFFF:
for each byte, xor it in and run 8 rounds. -/
def crc16 (data : List Nat) : Nat :=
  data.foldl (fun crc b => crcRounds 8 (crc ^^^ b)) 0xFFFF

/-- CRC as two bytes, little-endian, as produced by
`crc.to_bytes(2, byteorder='little')`. -/
def crcLE (data : List Nat) : List Nat :=
  [crc16 data % 256, crc16 data / 256 % 256]

/-! ### Frame encoders (read_holding_registers / write_single_register /
write_multiple_registers, packet-building part)

Each Python method builds a `bytearray` of header bytes (every entry masked
to a byte except the slave id and, for 0x10, the byte count: `bytearray`
raises `ValueError` when such an entry exceeds 255 — modelled by `none`)
and then appends the little-endian CRC of the bytes so far. -/

/-- Frame for Read Holding Registers (0x03):
`[slave, 0x03, addr_hi, addr_lo, count_hi, count_lo] ++ CRC`. -/
def read_frame (slaveId address numRegisters : Nat) : Option (List Nat) :=
  if slaveId ≤ 255 then
    let body := [slaveId, 0x03,
                 (address >>> 8) &&& 0xFF, address &&& 0xFF,
                 (numRegisters >>> 8) &&& 0xFF, numRegisters &&& 0xFF]
    some (body ++ crcLE body)
  else none

/-- Frame for Write Single Register (0x06):
`[slave, 0x06, addr_hi, addr_lo, val_hi, val_lo] ++ CRC`. -/
def write_single_frame (slaveId address value : Nat) : Option (List Nat) :=
  if slaveId ≤ 255 then
    let body := [slaveId, 0x06,
                 (address >>> 8) &&& 0xFF, address &&& 0xFF,
                 (value >>> 8) &&& 0xFF, value &&& 0xFF]
    some (body ++ crcLE body)
  else none

/-- Data section of a Write Multiple Registers frame: each value appended
high byte first (`(value >> 8) & 0xFF`, then `value & 0xFF`). -/
def packValues (values : List Nat) : List Nat :=
  values.flatMap (fun v => [(v >>> 8) &&& 0xFF, v &&& 0xFF])

/-- Frame for Write Multiple Registers (0x10):
`[slave, 0x10, addr_hi, addr_lo, count_hi, count_lo, byte_count] ++ data
++ CRC`, with `byte_count = len(values) * 2` stored in one byte — the
`bytearray` constructor raises when it exceeds 255. -/
def write_multiple_frame (slaveId address : Nat) (values : List Nat) :
    Option (List Nat) :=
  if slaveId ≤ 255 ∧ values.length * 2 ≤ 255 then
    let body := [slaveId, 0x10,
                 (address >>> 8) &&& 0xFF, address &&& 0xFF,
                 (values.length >>> 8) &&& 0xFF, values.length &&& 0xFF,
                 values.length * 2] ++ packValues values
    some (body ++ crcLE body)
  else none

/-- A frame ends with the little-endian CRC16 of all bytes before it. -/
def crcAppendOk (f : List Nat) : Prop :=
  List.drop (f.length - 2) f = crcLE (List.take (f.length - 2) f)

theorem crcAppendOk_append (body : List Nat) : crcAppendOk (body ++ crcLE body) := by
  have hlen : (body ++ crcLE body).length - 2 = body.length := by
    simp [crcLE]
  unfold crcAppendOk
  rw [hlen]
  rw [List.drop_left, List.take_left]

/-- C1: every frame built by one of the three encoders ends in the Modbus
CRC16 (poly 0xA001, init 0xFFFF) of all preceding bytes, appended
little-endian. -/
theorem encoders_append_crc (s a n v : Nat) (vs : List Nat) (f : List Nat)
    (h : read_frame s a n = some f ∨ write_single_frame s a v = some f ∨
         write_multiple_frame s a vs = some f) :
    crcAppendOk f := by
  rcases h with h | h | h
  · unfold read_frame at h
    split at h
    · cases h; exact crcAppendOk_append _
    · cases h
  · unfold write_single_frame at h
    split at h
    · cases h; exact crcAppendOk_append _
    · cases h
  · unfold write_multiple_frame at h
    split at h
    · cases h; exact crcAppendOk_append _
    · cases h

/-- Witness for C1: the concrete read request for 6 registers at
ANGLE_ACT = 1546 carries its CRC in the last two bytes. -/
theorem encoders_append_crc_witness :
    crcAppendOk ([1, 0x03, 6, 10, 0, 6] ++ crcLE [1, 0x03, 6, 10, 0, 6]) :=
  encoders_append_crc 1 1546 6 0 [] _ (Or.inl rfl)

/-! ### Read-response parsing (read_holding_registers, response branch)

Python source (inside the `try` block, after reading `response`):
```
if len(response) >= 5 and response[0] == self.slave_id and response[1] == 0x03:
    byte_count = response[2]
    values = []
    for i in range(0, byte_count, 2):
        if i + 3 < len(response):
            value = (response[i+3] << 8) | response[i+4]
            values.append(value)
    return values
else:
    print("Invalid response")
    return None
```
An `IndexError` on `response[i+4]` (possible when `i + 4 == len(response)`)
is caught by the surrounding `except`, which returns `None`; modelled by
`none`.  Note that no CRC check appears anywhere in this parser. -/

/-- The loop body over the index list `range(0, byte_count, 2)`: collect
`(response[i+3] << 8) | response[i+4]` for each index whose guard
`i + 3 < len(response)` holds; an out-of-range `response[i+4]` aborts the
whole parse (the exception discards the partial list). -/
def collectValues (response : List Nat) : List Nat → Option (List Nat)
  | [] => some []
  | i :: rest =>
    if i + 3 < response.length then
      match response.get? (i + 3), response.get? (i + 4) with
      | some hi, some lo =>
        (collectValues response rest).map (fun vs => ((hi <<< 8) ||| lo) :: vs)
      | _, _ => none
    else collectValues response rest

/-- The even indices `0, 2, 4, ...` below `byteCount`, as produced by
`range(0, byte_count, 2)`. -/
def evenIndicesBelow (byteCount : Nat) : List Nat :=
  (List.range byteCount).filter (fun i => i % 2 == 0)

/-- Response parser of `read_holding_registers`: header check (length ≥ 5,
slave id echo, function code 0x03), then the collection loop. -/
def parse_read_response (slaveId : Nat) (response : List Nat) :
    Option (List Nat) :=
  if 5 ≤ response.length ∧ response.getD 0 0 = slaveId ∧
      response.getD 1 0 = 0x03 then
    collectValues response (evenIndicesBelow (response.getD 2 0))
  else none

/-- Counterexample to C2: a response whose trailing two bytes `[0, 0]` are
not the CRC16 of the preceding bytes (that CRC is `[120, 71]`) is still
decoded successfully to a register value — the parser never checks the CRC. -/
theorem read_decode_accepts_corrupt_crc :
    parse_read_response 1 [1, 0x03, 2, 0, 5, 0, 0] = some [5] ∧
    crcLE [1, 0x03, 2, 0, 5] ≠ [0, 0] := by
  constructor
  · decide
  · decide

/-- C2 as amended: the read-response parser validates only the header — the
decoded values are entirely independent of the two trailing CRC bytes (first
conjunct: any trailing bytes `c1, c2` whatsoever give the same successful
decode), and a successful parse guarantees only length ≥ 5 and matching
slave id and function code (second conjunct). -/
theorem read_decode_header_only :
    (∀ s hi lo c1 c2 : Nat,
       parse_read_response s [s, 0x03, 2, hi, lo, c1, c2] =
         some [(hi <<< 8) ||| lo]) ∧
    (∀ (s : Nat) (r v : List Nat), parse_read_response s r = some v →
       5 ≤ r.length ∧ r.getD 0 0 = s ∧ r.getD 1 0 = 0x03) := by
  constructor
  · intro s hi lo c1 c2
    unfold parse_read_response
    rw [if_pos]
    · rfl
    · exact ⟨by simp, rfl, rfl⟩
  · intro s r v h
    unfold parse_read_response at h
    split at h
    · assumption
    · cases h

/-- Witness for C2's amended theorem: applying the header-only guarantee to
a concrete successfully parsed response. -/
theorem read_decode_header_only_witness :
    5 ≤ [1, 0x03, 2, 0, 9, 7, 7].length ∧
    [1, 0x03, 2, 0, 9, 7, 7].getD 0 0 = 1 ∧
    [1, 0x03, 2, 0, 9, 7, 7].getD 1 0 = 0x03 :=
  read_decode_header_only.2 1 [1, 0x03, 2, 0, 9, 7, 7] [9] (by decide)

/-! ### Write acknowledgment check (write_single_register /
write_multiple_registers, response branch)

Python source (function code 0x06 resp. 0x10):
```
if len(response) >= 8 and response[0] == self.slave_id and response[1] == 0x06:
    return True
else:
    print("Invalid response")
    return False
```
-/

/-- Acknowledgment check shared by both write paths: length ≥ 8 and the
first two bytes echo the slave id and function code; nothing else is
examined. -/
def check_write_ack (slaveId fc : Nat) (response : List Nat) : Bool :=
  decide (8 ≤ response.length) && (response.getD 0 0 == slaveId) &&
    (response.getD 1 0 == fc)

/-- C8: the acknowledgment check succeeds iff the response has at least 8
bytes and its first two bytes match the expected slave id and function code
(first conjunct); in particular an 8-byte ack whose echoed address/value
bytes are arbitrary and whose trailing bytes are not the frame's CRC is
accepted (middle conjuncts: `[15, 73]` would be the correct CRC, yet
`[37, 37]` passes), while a 7-byte ack is rejected (last conjunct). -/
theorem write_ack_checks_only_header :
    (∀ (s fc : Nat) (r : List Nat),
       check_write_ack s fc r = true ↔
         8 ≤ r.length ∧ r.getD 0 0 = s ∧ r.getD 1 0 = fc) ∧
    check_write_ack 1 0x06 [1, 0x06, 99, 99, 99, 99, 37, 37] = true ∧
    crcLE [1, 0x06, 99, 99, 99, 99] ≠ [37, 37] ∧
    check_write_ack 1 0x10 [1, 0x10, 9, 9, 9, 9, 0, 0] = true ∧
    check_write_ack 1 0x06 [1, 0x06, 5, 206, 0, 5, 0] = false := by
  refine ⟨?_, by decide, by decide, by decide, by decide⟩
  intro s fc r
  unfold check_write_ack
  simp [Bool.and_eq_true, decide_eq_true_iff, and_assoc]

/-! ### C3: Write Multiple Registers encoding -/

/-- Counterexample to C3 as stated: for a list of 128 values the byte count
`2 * 128 = 256` does not fit the single byte-count byte — the `bytearray`
constructor raises `ValueError` and no frame is encoded, so the claim's
quantification over every non-empty list fails. -/
theorem write_multiple_frame_overflows_at_128 :
    write_multiple_frame 1 1486 (List.replicate 128 0) = none := by
  decide

/-- C3 as amended (to lists of at most 127 values): the encoded frame is
`[slave, 0x10, addr_hi, addr_lo, count_hi, count_lo, byte_count]` followed
by each value big-endian and the CRC, with `byte_count = 2 * len(values)`
(first conjunct); concretely, writing `[0,0,0,0,0,0]` at ANGLE_SET = 1486
gives function 0x10, address bytes `5, 206`, byte count 12, twelve zero
data bytes and the CRC `[205, 178]` (second conjunct). -/
theorem write_multiple_frame_encoding :
    (∀ (s a : Nat) (vs : List Nat), s ≤ 255 → 1 ≤ vs.length →
       vs.length ≤ 127 →
       write_multiple_frame s a vs =
         some (([s, 0x10, (a >>> 8) &&& 0xFF, a &&& 0xFF,
                 (vs.length >>> 8) &&& 0xFF, vs.length &&& 0xFF,
                 2 * vs.length] ++ packValues vs) ++
               crcLE ([s, 0x10, (a >>> 8) &&& 0xFF, a &&& 0xFF,
                 (vs.length >>> 8) &&& 0xFF, vs.length &&& 0xFF,
                 2 * vs.length] ++ packValues vs))) ∧
    write_multiple_frame 1 1486 [0, 0, 0, 0, 0, 0] =
      some [1, 0x10, 5, 206, 0, 6, 12,
            0, 0, 0, 0, 0, 0, 0, 0, 0, 0, 0, 0, 205, 178] := by
  constructor
  · intro s a vs hs h1 h127
    unfold write_multiple_frame
    rw [if_pos ⟨hs, by omega⟩]
    rw [Nat.mul_comm vs.length 2]
  · decide

/-- Witness for C3's amended theorem: the general encoding shape applied to
the concrete ANGLE_SET bulk write of six zeros. -/
theorem write_multiple_frame_encoding_witness :
    write_multiple_frame 1 1486 [0, 0, 0, 0, 0, 0] =
      some (([1, 0x10, (1486 >>> 8) &&& 0xFF, 1486 &&& 0xFF,
              (([0, 0, 0, 0, 0, 0] : List Nat).length >>> 8) &&& 0xFF,
              ([0, 0, 0, 0, 0, 0] : List Nat).length &&& 0xFF,
              2 * ([0, 0, 0, 0, 0, 0] : List Nat).length] ++
              packValues [0, 0, 0, 0, 0, 0]) ++
            crcLE ([1, 0x10, (1486 >>> 8) &&& 0xFF, 1486 &&& 0xFF,
              (([0, 0, 0, 0, 0, 0] : List Nat).length >>> 8) &&& 0xFF,
              ([0, 0, 0, 0, 0, 0] : List Nat).length &&& 0xFF,
              2 * ([0, 0, 0, 0, 0, 0] : List Nat).length] ++
              packValues [0, 0, 0, 0, 0, 0])) :=
  write_multiple_frame_encoding.1 1 1486 [0, 0, 0, 0, 0, 0]
    (by decide) (by decide) (by decide)

/-! ### Transport behaviour (connection check, send, timeout)

Each of the three I/O methods first checks
`if not self.ser or not self.ser.is_open: return None/False`, then builds
the packet, writes it, sleeps, and checks `self.ser.in_waiting`; when no
bytes arrived it prints "No response received" and returns `None`/`False`
without touching the port.  The serial state is modelled as
`Option Bool` (`none` = no port object, `some b` = port with `is_open = b`),
the bytes available after the wait as `Option (List Nat)` (`none` = nothing
arrived before the deadline).  The overall result is `none` when packet
construction raises (propagating out of the method), otherwise
`some (return value, serial state afterwards)`. -/

/-- Model of `read_holding_registers` including connection check and
response wait. -/
def read_holding_registers_run (ser : Option Bool)
    (slaveId address numRegisters : Nat) (incoming : Option (List Nat)) :
    Option (Option (List Nat) × Option Bool) :=
  match ser with
  | some true =>
    match read_frame slaveId address numRegisters with
    | none => none
    | some _ =>
      match incoming with
      | some resp => some (parse_read_response slaveId resp, some true)
      | none => some (none, some true)
  | _ => some (none, ser)

/-- Model of `write_single_register` including connection check and
response wait. -/
def write_single_register_run (ser : Option Bool)
    (slaveId address value : Nat) (incoming : Option (List Nat)) :
    Option (Bool × Option Bool) :=
  match ser with
  | some true =>
    match write_single_frame slaveId address value with
    | none => none
    | some _ =>
      match incoming with
      | some resp => some (check_write_ack slaveId 0x06 resp, some true)
      | none => some (false, some true)
  | _ => some (false, ser)

/-- Model of `write_multiple_registers` including connection check and
response wait. -/
def write_multiple_registers_run (ser : Option Bool)
    (slaveId address : Nat) (values : List Nat)
    (incoming : Option (List Nat)) : Option (Bool × Option Bool) :=
  match ser with
  | some true =>
    match write_multiple_frame slaveId address values with
    | none => none
    | some _ =>
      match incoming with
      | some resp => some (check_write_ack slaveId 0x10 resp, some true)
      | none => some (false, some true)
  | _ => some (false, ser)

/-- C7: on an open port, when no response bytes arrive before the deadline
every transport operation returns its no-response failure value (`None` for
a read, `False` for a write) without raising, and the serial port is left
exactly as it was — open.  A timeout never closes the connection. -/
theorem timeout_returns_failure_and_keeps_port_open
    (s a n v : Nat) (vs : List Nat) (hs : s ≤ 255)
    (hvs : vs.length * 2 ≤ 255) :
    read_holding_registers_run (some true) s a n none =
      some (none, some true) ∧
    write_single_register_run (some true) s a v none =
      some (false, some true) ∧
    write_multiple_registers_run (some true) s a vs none =
      some (false, some true) := by
  refine ⟨?_, ?_, ?_⟩
  · unfold read_holding_registers_run read_frame
    rw [if_pos hs]
  · unfold write_single_register_run write_single_frame
    rw [if_pos hs]
  · unfold write_multiple_registers_run write_multiple_frame
    rw [if_pos ⟨hs, hvs⟩]

/-- Witness for C7: a concrete timed-out read of the six angle registers
and timed-out writes leave the port open and return `None`/`False`. -/
theorem timeout_keeps_port_open_witness :
    read_holding_registers_run (some true) 1 1546 6 none =
      some (none, some true) ∧
    write_single_register_run (some true) 1 1486 1000 none =
      some (false, some true) ∧
    write_multiple_registers_run (some true) 1 1486 [0, 0, 0, 0, 0, 0]
      none = some (false, some true) :=
  timeout_returns_failure_and_keeps_port_open 1 1486 6 1000
    [0, 0, 0, 0, 0, 0] (by decide) (by decide)

/-! ### Register map (class Register in hand.py) -/

namespace Register

def ANGLE_SET : Nat := 1486

def FORCE_SET : Nat := 1498

def SPEED_SET : Nat := 1522

def ANGLE_ACT : Nat := 1546

def ERROR : Nat := 1606

def STATUS : Nat := 1612

def TEMP : Nat := 1618

end Register

/-! ### Validation in InspireHandModbus.set_finger_angle

Python source:
```
if not 0 <= finger_id <= 5:
    print("Invalid finger ID. Must be 0-5.")
    return False
if not 0 <= angle <= 1000:
    print("Invalid angle. Must be 0-1000.")
    return False
register_address = 1486 + (finger_id * 2)
return self.write_single_register(register_address, angle)
```
Arguments are Python integers (unbounded, possibly negative): `Int`.
`none` models the early `return False` (nothing sent on the wire); a
`some (addr, value)` result is the argument pair handed to
`write_single_register`. -/

/-- Decision logic of `InspireHandModbus.set_finger_angle`. -/
def set_finger_angle_proper (fingerId angle : Int) : Option (Int × Int) :=
  if 0 ≤ fingerId ∧ fingerId ≤ 5 then
    if 0 ≤ angle ∧ angle ≤ 1000 then
      some (1486 + fingerId * 2, angle)
    else none
  else none

/-! ### InspireHand operations (hand.py)

Every operation of `InspireHand` first runs `_check_connection`, which
raises `ConnectionError` when `self._connected` is false; only then are the
arguments validated (`ValueError`) and the register write issued through
the Modbus client.  The outcome (which exception was raised, or which
register write was issued) is modelled by `HandResult`. -/


/-- Outcome of an `InspireHand` setter: the exception raised, or the
single-register write `(address, value)` handed to the Modbus client. -/
inductive HandResult where
  | connectionError
  | valueError
  | write (address value : Int)
deriving DecidableEq, Repr

/-- Model of `InspireHand.set_finger_angle`: connection check, finger id
range check, angle range check, then a single-register write at
`Register.ANGLE_SET + finger_id * 2`. -/
def set_finger_angle_hand (connected : Bool) (fingerId angle : Int) :
    HandResult :=
  if connected = false then HandResult.connectionError
  else if ¬ (0 ≤ fingerId ∧ fingerId ≤ 5) then HandResult.valueError
  else if ¬ (0 ≤ angle ∧ angle ≤ 1000) then HandResult.valueError
  else HandResult.write ((Register.ANGLE_SET : Int) + fingerId * 2) angle

/-- Model of `InspireHand.set_finger_speed`: same shape, register block
`Register.SPEED_SET`. -/
def set_finger_speed_hand (connected : Bool) (fingerId speed : Int) :
    HandResult :=
  if connected = false then HandResult.connectionError
  else if ¬ (0 ≤ fingerId ∧ fingerId ≤ 5) then HandResult.valueError
  else if ¬ (0 ≤ speed ∧ speed ≤ 1000) then HandResult.valueError
  else HandResult.write ((Register.SPEED_SET : Int) + fingerId * 2) speed

/-- Model of `InspireHand.set_finger_force`: same shape, register block
`Register.FORCE_SET`. -/
def set_finger_force_hand (connected : Bool) (fingerId force : Int) :
    HandResult :=
  if connected = false then HandResult.connectionError
  else if ¬ (0 ≤ fingerId ∧ fingerId ≤ 5) then HandResult.valueError
  else if ¬ (0 ≤ force ∧ force ≤ 1000) then HandResult.valueError
  else HandResult.write ((Register.FORCE_SET : Int) + fingerId * 2) force

/-- C4: `set_finger_angle` rejects without any wire traffic exactly when
the finger id is outside [0,5] or the angle outside [0,1000] (conjuncts 1
and 5, for the `InspireHandModbus` and the connected `InspireHand` layer
respectively), and an accepted call writes the single register
`1486 + finger_id * 2` with the given angle (conjuncts 2 and 6); finger id
6 (ALL) and angle 1001 are rejected, angles 0 and 1000 accepted
(conjuncts 3 and 4). -/
theorem set_finger_angle_validation :
    (∀ f a : Int, set_finger_angle_proper f a = none ↔
       (f < 0 ∨ 5 < f ∨ a < 0 ∨ 1000 < a)) ∧
    (∀ f a : Int, 0 ≤ f → f ≤ 5 → 0 ≤ a → a ≤ 1000 →
       set_finger_angle_proper f a = some (1486 + f * 2, a)) ∧
    (set_finger_angle_proper 6 500 = none ∧
     set_finger_angle_proper 0 1001 = none) ∧
    (set_finger_angle_proper 0 0 = some (1486, 0) ∧
     set_finger_angle_proper 5 1000 = some (1496, 1000)) ∧
    (∀ f a : Int, set_finger_angle_hand true f a = HandResult.valueError ↔
       (f < 0 ∨ 5 < f ∨ a < 0 ∨ 1000 < a)) ∧
    (∀ f a : Int, 0 ≤ f → f ≤ 5 → 0 ≤ a → a ≤ 1000 →
       set_finger_angle_hand true f a =
         HandResult.write ((Register.ANGLE_SET : Int) + f * 2) a) := by
  refine ⟨?_, ?_, ⟨by decide, by decide⟩, ⟨by decide, by decide⟩, ?_, ?_⟩
  · intro f a
    unfold set_finger_angle_proper
    split_ifs with h1 h2
    · simp only [reduceCtorEq, false_iff]
      omega
    · simp only [true_iff]
      omega
    · simp only [true_iff]
      omega
  · intro f a hf0 hf5 ha0 ha1
    unfold set_finger_angle_proper
    rw [if_pos ⟨hf0, hf5⟩, if_pos ⟨ha0, ha1⟩]
  · intro f a
    unfold set_finger_angle_hand
    rw [if_neg (by simp)]
    split_ifs with h1 h2
    · exact iff_of_false (by simp) (by omega)
    · exact iff_of_true rfl (by omega)
    · exact iff_of_true rfl (by omega)
  · intro f a hf0 hf5 ha0 ha1
    unfold set_finger_angle_hand
    rw [if_neg (by simp), if_neg (by omega), if_neg (by omega)]

/-- Witness for C4: finger 3 at angle 500 is accepted and targets register
1486 + 3 * 2 = 1492 in both layers. -/
theorem set_finger_angle_validation_witness :
    set_finger_angle_proper 3 500 = some (1486 + 3 * 2, 500) ∧
    set_finger_angle_hand true 3 500 =
      HandResult.write ((Register.ANGLE_SET : Int) + 3 * 2) 500 :=
  ⟨set_finger_angle_validation.2.1 3 500 (by decide) (by decide) (by decide)
     (by decide),
   set_finger_angle_validation.2.2.2.2.2 3 500 (by decide) (by decide)
     (by decide) (by decide)⟩

/-- C10: the connection check runs before argument validation — on a
disconnected hand every setter raises `ConnectionError`, for every argument
pair, including out-of-range ones (first three conjuncts); the same
out-of-range arguments raise `ValueError` once connected, so a `ValueError`
is observable only on a connected hand (last three conjuncts). -/
theorem connection_check_precedes_validation :
    (∀ f a : Int,
       set_finger_angle_hand false f a = HandResult.connectionError) ∧
    (∀ f a : Int,
       set_finger_speed_hand false f a = HandResult.connectionError) ∧
    (∀ f a : Int,
       set_finger_force_hand false f a = HandResult.connectionError) ∧
    set_finger_angle_hand true 6 1001 = HandResult.valueError ∧
    set_finger_speed_hand true 6 1001 = HandResult.valueError ∧
    set_finger_force_hand true 6 1001 = HandResult.valueError := by
  refine ⟨fun f a => rfl, fun f a => rfl, fun f a => rfl,
    by decide, by decide, by decide⟩

/-! ### Packed-byte status/error/temperature reads (hand.py)

The methods get_finger_errors and get_finger_temperatures read 3 registers
and run:
```
for value in values:
    errors.append(value & 0xFF)
    errors.append((value >> 8) & 0xFF)
return errors[:6]
```
The method get_finger_statuses does the same but wraps each byte in
`FingerStatus(...)` — a plain `IntEnum` whose defined codes are
`{0, 1, 2, 3, 5, 6, 7}`; `FingerStatus(b)` raises `ValueError` for any
other byte `b` (including the reserved value 4). -/

/-- Byte unpacking of `get_finger_errors` / `get_finger_temperatures`:
low byte then high byte per register, truncated to 6 entries. -/
def unpack_packed_bytes (values : List Nat) : List Nat :=
  (values.flatMap (fun v => [v &&& 0xFF, (v >>> 8) &&& 0xFF])).take 6

/-- Finger status codes, after `class FingerStatus(IntEnum)` in hand.py
(note: no constructor for code 4 — the enumeration has a gap there). -/
inductive FingerStatus where
  | unclenching
  | grasping
  | reachedTarget
  | reachedForce
  | currentProtection
  | lockedRotor
  | fault
deriving DecidableEq, Repr

/-- Constructing `FingerStatus(b)`: `some` for the seven defined codes,
`none` for every other byte — the `IntEnum` call raises `ValueError`
there. -/
def FingerStatus.fromCode (b : Nat) : Option FingerStatus :=
  match b with
  | 0 => some FingerStatus.unclenching
  | 1 => some FingerStatus.grasping
  | 2 => some FingerStatus.reachedTarget
  | 3 => some FingerStatus.reachedForce
  | 5 => some FingerStatus.currentProtection
  | 6 => some FingerStatus.lockedRotor
  | 7 => some FingerStatus.fault
  | _ => none

/-- Construct a status for every byte in order; the first undefined code
raises, discarding the whole result (Python exception semantics). -/
def statusesFromBytes : List Nat → Option (List FingerStatus)
  | [] => some []
  | b :: rest =>
    match FingerStatus.fromCode b, statusesFromBytes rest with
    | some st, some sts => some (st :: sts)
    | _, _ => none

/-- Model of `get_finger_statuses` applied to the 3 register values read
from the STATUS block: unpack low byte then high byte per register,
construct each `FingerStatus` in that order, keep the first 6. -/
def get_finger_statuses_model (values : List Nat) :
    Option (List FingerStatus) :=
  (statusesFromBytes
      (values.flatMap (fun v => [v &&& 0xFF, (v >>> 8) &&& 0xFF]))).map
    (fun l => l.take 6)

/-- C5: for error and temperature blocks the driver returns exactly six
byte-wide values, entry 2k the low byte of register k and entry 2k+1 its
high byte (first conjunct) — but the same claim fails for the status
block: a register triple whose first low byte is the undocumented code 8
makes `get_finger_statuses` raise instead of returning six values (second
conjunct), because `FingerStatus` has no tolerant fallback; on defined
codes the status read does return the six statuses in the same low-first
order (third conjunct, the spec's own test vector). -/
theorem packed_unpack_order_and_status_failure :
    (∀ a b c : Nat, unpack_packed_bytes [a, b, c] =
       [a &&& 0xFF, (a >>> 8) &&& 0xFF, b &&& 0xFF, (b >>> 8) &&& 0xFF,
        c &&& 0xFF, (c >>> 8) &&& 0xFF]) ∧
    get_finger_statuses_model [8, 0, 0] = none ∧
    get_finger_statuses_model [0x0700, 0x0203, 0x0005] =
      some [FingerStatus.unclenching, FingerStatus.fault,
            FingerStatus.reachedForce, FingerStatus.reachedTarget,
            FingerStatus.currentProtection, FingerStatus.unclenching] := by
  refine ⟨fun a b c => rfl, by decide, by decide⟩

/-- C6: the driver does not tolerate undocumented status codes — the
`FingerStatus` enumeration rejects the reserved value 4 (and any code
above 7), so a status block reporting code 4 for the first finger makes
`get_finger_statuses` fail with `ValueError` instead of mapping it to an
unknown/reserved representation. -/
theorem finger_status_rejects_reserved_code :
    FingerStatus.fromCode 4 = none ∧
    FingerStatus.fromCode 9 = none ∧
    get_finger_statuses_model [4, 0, 0] = none := by
  refine ⟨rfl, rfl, by decide⟩

/-! ### Connection lifecycle

`InspireHand` (hand.py) guards its Modbus client with a `_connected` flag:
```
def open(self):
    if not self._connected:
        self.modbus.connect()
        self._connected = True
def close(self):
    if self._connected:
        self.modbus.disconnect()
        self._connected = False
```
`InspireHandModbus.connect` (inspire_hand_modbus_proper.py) has no such
guard: every call executes `self.ser = serial.Serial(...)`, constructing
and opening a fresh port object even when one is already open, while
`disconnect` closes only `if self.ser and self.ser.is_open`. -/

/-- State of `InspireHand`: the `_connected` flag plus counters of the
physical `modbus.connect()` / `modbus.disconnect()` calls issued. -/
structure HandState where
  connected : Bool
  connectCalls : Nat
  disconnectCalls : Nat
deriving DecidableEq, Repr

/-- Model of `InspireHand.open`. -/
def hand_open (s : HandState) : HandState :=
  if s.connected then s
  else { connected := true, connectCalls := s.connectCalls + 1,
         disconnectCalls := s.disconnectCalls }

/-- Model of `InspireHand.close`. -/
def hand_close (s : HandState) : HandState :=
  if s.connected then
    { connected := false, connectCalls := s.connectCalls,
      disconnectCalls := s.disconnectCalls + 1 }
  else s

/-- One call in an open/close call sequence. -/
inductive HandOp where
  | openHand
  | closeHand
deriving DecidableEq, Repr

/-- Run a sequence of open/close calls, left to right. -/
def hand_run (ops : List HandOp) (s : HandState) : HandState :=
  ops.foldl (fun s op => match op with
    | HandOp.openHand => hand_open s
    | HandOp.closeHand => hand_close s) s

/-- A serial port object of `InspireHandModbus`: which `serial.Serial(...)`
construction produced it, and whether it is open. -/
structure ModbusSerial where
  handle : Nat
  isOpen : Bool
deriving DecidableEq, Repr

/-- State of `InspireHandModbus`: `self.ser` (`none` before any connect)
plus a counter distinguishing successive `serial.Serial(...)` objects. -/
structure ModbusProperState where
  ser : Option ModbusSerial
  nextHandle : Nat
deriving DecidableEq, Repr

/-- Model of `InspireHandModbus.connect`: unconditionally constructs and
opens a fresh serial port object. -/
def modbus_connect (s : ModbusProperState) : ModbusProperState :=
  { ser := some { handle := s.nextHandle, isOpen := true },
    nextHandle := s.nextHandle + 1 }

/-- Model of `InspireHandModbus.disconnect`: closes the port only when one
exists and is open. -/
def modbus_disconnect (s : ModbusProperState) : ModbusProperState :=
  match s.ser with
  | some p => if p.isOpen then
      { s with ser := some { p with isOpen := false } } else s
  | none => s

/-- Counterexample to C9 as stated: `InspireHandModbus.connect` is not a
no-op on an already-open session — a second call constructs and opens a
fresh `serial.Serial` object (the state differs, with a new port object and
another construction performed), so connecting is not idempotent at this
layer. -/
theorem modbus_connect_not_idempotent :
    modbus_connect (modbus_connect { ser := none, nextHandle := 0 }) ≠
      modbus_connect { ser := none, nextHandle := 0 } := by
  decide

/-- C9 as amended: at the `InspireHand` layer, `open` when already open and
`close` when already closed are no-ops (conjuncts 1 and 2: repeating the
call changes nothing, in particular no second `modbus.connect()` is
issued), after an `open` the connected flag is true and after a `close`
false (conjuncts 3 and 4), and after any call sequence the flag reflects
the last call (conjuncts 5 and 6); `InspireHandModbus.disconnect` is
likewise idempotent (conjunct 7) — but `InspireHandModbus.connect` is not:
every call re-opens the port (see the counterexample). -/
theorem hand_open_close_idempotent :
    (∀ s : HandState, hand_open (hand_open s) = hand_open s) ∧
    (∀ s : HandState, hand_close (hand_close s) = hand_close s) ∧
    (∀ s : HandState, (hand_open s).connected = true) ∧
    (∀ s : HandState, (hand_close s).connected = false) ∧
    (∀ (ops : List HandOp) (s : HandState),
       (hand_run (ops ++ [HandOp.openHand]) s).connected = true) ∧
    (∀ (ops : List HandOp) (s : HandState),
       (hand_run (ops ++ [HandOp.closeHand]) s).connected = false) ∧
    (∀ t : ModbusProperState,
       modbus_disconnect (modbus_disconnect t) = modbus_disconnect t) := by
  have hopen : ∀ s : HandState, (hand_open s).connected = true := by
    intro s
    rcases s with ⟨c, cc, dc⟩
    cases c
    · rfl
    · rfl
  have hclose : ∀ s : HandState, (hand_close s).connected = false := by
    intro s
    rcases s with ⟨c, cc, dc⟩
    cases c
    · rfl
    · rfl
  refine ⟨?_, ?_, hopen, hclose, ?_, ?_, ?_⟩
  · intro s
    rcases s with ⟨c, cc, dc⟩
    cases c
    · rfl
    · rfl
  · intro s
    rcases s with ⟨c, cc, dc⟩
    cases c
    · rfl
    · rfl
  · intro ops s
    unfold hand_run
    rw [List.foldl_append]
    exact hopen _
  · intro ops s
    unfold hand_run
    rw [List.foldl_append]
    exact hclose _
  · intro t
    rcases t with ⟨ser, nh⟩
    rcases ser with _ | ⟨h, o⟩
    · rfl
    · cases o
      · rfl
      · rfl
